import Mathlib

/-!
Shallow embedding of `poc/vibevoice-pytorch/run.py`, the VibeVoice TTS
runner CLI. Side effects (filesystem, network, stderr) are made explicit:
the filesystem is a record of existing paths, the network is a function
from URL to success or an error message, and each operation returns its
result together with the updated state and a trace of the external calls
it made. External library behaviour (torch backend availability, the MD5
hex digest from hashlib, model loading and generation) enters as
parameters, since the repository delegates those entirely.
-/

namespace VibeVoiceRun

/-- One entry of the `VOICE_PROMPTS` table: source URL and description. -/
structure VoiceInfo where
  url : String
  description : String
deriving DecidableEq, Repr

/-- The `VOICE_PROMPTS` dict from run.py: six fixed voices, in source order. -/
def VOICE_PROMPTS : List (String × VoiceInfo) :=
  [ ("Carter",
      ⟨"https://huggingface.co/microsoft/VibeVoice-Realtime-0.5B/resolve/main/audio_prompts/Carter.wav",
       "Male voice, neutral tone"⟩),
    ("Nicole",
      ⟨"https://huggingface.co/microsoft/VibeVoice-Realtime-0.5B/resolve/main/audio_prompts/Nicole.wav",
       "Female voice, neutral tone"⟩),
    ("Aria",
      ⟨"https://huggingface.co/microsoft/VibeVoice-Realtime-0.5B/resolve/main/audio_prompts/Aria.wav",
       "Female voice, warm tone"⟩),
    ("Daphne",
      ⟨"https://huggingface.co/microsoft/VibeVoice-Realtime-0.5B/resolve/main/audio_prompts/Daphne.wav",
       "Female voice, professional tone"⟩),
    ("Jessica",
      ⟨"https://huggingface.co/microsoft/VibeVoice-Realtime-0.5B/resolve/main/audio_prompts/Jessica.wav",
       "Female voice, friendly tone"⟩),
    ("Ruby",
      ⟨"https://huggingface.co/microsoft/VibeVoice-Realtime-0.5B/resolve/main/audio_prompts/Ruby.wav",
       "Female voice, energetic tone"⟩) ]

/-- Dictionary lookup `VOICE_PROMPTS[voice]`, as membership test plus access. -/
def lookupVoice (voice : String) : Option VoiceInfo :=
  (VOICE_PROMPTS.find? (fun p => p.1 == voice)).map (fun p => p.2)

/-- The string `", ".join(VOICE_PROMPTS.keys())` used in the unknown-voice error. -/
def availableVoices : String :=
  String.intercalate (", ") (VOICE_PROMPTS.map (fun p => p.1))

def DEFAULT_VOICE : String := "Carter"

def DEFAULT_MODEL : String := "microsoft/VibeVoice-Realtime-0.5B"

def DEFAULT_DEVICE : String := "mps"

def DEFAULT_DDPM_STEPS : Nat := 5

def DEFAULT_SAMPLE_RATE : Nat := 22050

/-- The two torch dtypes the script ever selects. -/
inductive Dtype where
  | float16
  | float32
deriving DecidableEq, Repr

/-- Backend availability of the torch runtime on the host,
i.e. `torch.backends.mps.is_available()` and `torch.cuda.is_available()`. -/
structure Torch where
  mps_is_available : Bool
  cuda_is_available : Bool
deriving DecidableEq, Repr

/-- Embeds `get_device_dtype` from run.py: for "mps" and "cuda" the device
falls back to "cpu" when the backend is unavailable, and the dtype is set
in the same branch; any other token resolves to ("cpu", float32). -/
def get_device_dtype (torch : Torch) (device : String) : String × Dtype :=
  if device = "mps" then
    ((if torch.mps_is_available then ("mps") else ("cpu")), Dtype.float16)
  else if device = "cuda" then
    ((if torch.cuda_is_available then ("cuda") else ("cpu")), Dtype.float16)
  else
    ("cpu", Dtype.float32)

/-- A filesystem state: the set of existing regular-file paths and the set
of existing directories. File contents are irrelevant to the claims. -/
structure FS where
  files : List String
  dirs : List String
deriving DecidableEq, Repr

/-- Path existence test (`cache_path.exists()` / `voice_prompt_path.exists()`). -/
def FS.existsFile (fs : FS) (p : String) : Bool :=
  fs.files.contains p

/-- Embeds `cache_dir.mkdir(parents=True, exist_ok=True)`. -/
def FS.mkdir (fs : FS) (d : String) : FS :=
  { fs with dirs := if fs.dirs.contains d then fs.dirs else d :: fs.dirs }

/-- Embeds `open(cache_path, "wb")` followed by writing the response body. -/
def FS.writeFile (fs : FS) (p : String) : FS :=
  { fs with files := if fs.files.contains p then fs.files else p :: fs.files }

/-- Process environment plus the external collaborators of the download
path: `HF_HOME`, `HF_TOKEN`, the MD5 hex digest from hashlib, and the
network (a GET either succeeds or fails with an exception message). -/
structure Env where
  hfHome : String
  hfToken : Option String
  md5hex : String → String
  netFetch : String → Except String Unit

/-- Embeds `get_cache_dir`: resolves the directory under HF_HOME and
creates it. Returns the directory path and the updated filesystem. -/
def get_cache_dir (env : Env) (fs : FS) : String × FS :=
  let cache_dir := env.hfHome ++ "/vibevoice_prompts"
  (cache_dir, fs.mkdir cache_dir)

/-- Outcome of `download_voice_prompt`: the returned path, or a raised
ValueError, or a RuntimeError carrying its chained cause (`from e`). -/
inductive DlOutcome where
  | ok (path : String)
  | valueError (msg : String)
  | runtimeError (msg : String) (cause : Option String)
deriving DecidableEq, Repr

/-- Embeds `download_voice_prompt(voice, force)` from run.py. Returns the
outcome, the resulting filesystem, and the list of URLs for which a
network GET was attempted (in order). Unknown voices fail before
`get_cache_dir` runs; a cache hit without force returns immediately;
otherwise one GET is attempted, writing the file on success and raising
a wrapped RuntimeError on failure. -/
def download_voice_prompt (env : Env) (fs : FS) (voice : String)
    (force : Bool) : DlOutcome × FS × List String :=
  match lookupVoice voice with
  | none =>
      (DlOutcome.valueError
        ("Unknown voice: " ++ voice ++ ". Available: " ++ availableVoices),
       fs, [])
  | some prompt_info =>
      let cd := get_cache_dir env fs
      let url := prompt_info.url
      let url_hash := (env.md5hex url).take 8
      let cache_path := cd.1 ++ "/" ++ voice ++ "_" ++ url_hash ++ ".wav"
      if cd.2.existsFile cache_path && !force then
        (DlOutcome.ok cache_path, cd.2, [])
      else
        match env.netFetch url with
        | Except.ok _ =>
            (DlOutcome.ok cache_path, cd.2.writeFile cache_path, [url])
        | Except.error e =>
            (DlOutcome.runtimeError
              ("Failed to download voice prompt: " ++ e) (some e),
             cd.2, [url])

/-- The cache path `download_voice_prompt` computes for a known voice:
cache directory, slash, voice name, underscore, first 8 hex characters
of the MD5 of the URL, and the ".wav" extension. -/
def cachePathFor (env : Env) (voice : String) (url : String) : String :=
  env.hfHome ++ "/vibevoice_prompts" ++ "/" ++ voice ++ "_"
    ++ (env.md5hex url).take 8 ++ ".wav"

/-- Embeds `list_voices()`: the lines it prints to stdout. -/
def list_voices : List String :=
  "Available voices:" ::
    VOICE_PROMPTS.map (fun p => "  " ++ p.1 ++ ": " ++ p.2.description)

/-- Shape of the model handle `load_model` produced: an instance of the
official `VibeVoice` class, a Python dict with the given keys (the
transformers fallback returns one with keys "model" and "processor"),
or anything else. -/
inductive ModelHandle where
  | vibeVoiceInstance
  | pyDict (keys : List String)
  | otherHandle
deriving DecidableEq, Repr

/-- What `model.generate(...)` returned in the transformers fallback: an
object with an `audio` attribute, a bare tensor, or something else
(named by its type). Audio samples are abstract integers. -/
inductive GenOutputs where
  | withAudio (audio : List Int)
  | tensor (audio : List Int)
  | otherOutput (tyName : String)
deriving DecidableEq, Repr

/-- External data consumed by `synthesize_transformers`: the sample rate
soundfile reads from the voice-prompt file, and the generate output. -/
structure TransformersRun where
  prompt_sr : Nat
  outputs : GenOutputs
deriving DecidableEq, Repr

/-- Embeds `synthesize_transformers`: extracts the audio from the
generate output (raising on an unexpected type) and returns it paired
with the fixed DEFAULT_SAMPLE_RATE; the prompt's own sample rate is only
fed to the processor and never returned. -/
def synthesize_transformers (run : TransformersRun) :
    Except String (List Int × Nat) :=
  match run.outputs with
  | GenOutputs.withAudio audio => Except.ok (audio, DEFAULT_SAMPLE_RATE)
  | GenOutputs.tensor audio => Except.ok (audio, DEFAULT_SAMPLE_RATE)
  | GenOutputs.otherOutput tyName =>
      Except.error ("Unexpected output type: " ++ tyName)

/-- Embeds `synthesize_vibevoice`: if the vibevoice package imports and
the handle is a VibeVoice instance, return the official `model.tts`
result unchanged; otherwise, if the handle is a dict containing both
"model" and "processor", run the transformers fallback; otherwise raise
the incompatible-model RuntimeError. `ttsResult` is what `model.tts`
returns when called. -/
def synthesize_vibevoice (vvImportOk : Bool) (model : ModelHandle)
    (ttsResult : List Int × Nat) (trun : TransformersRun) :
    Except String (List Int × Nat) :=
  if vvImportOk = true ∧ model = ModelHandle.vibeVoiceInstance then
    Except.ok ttsResult
  else
    match model with
    | ModelHandle.pyDict keys =>
        if keys.contains ("model") && keys.contains ("processor") then
          synthesize_transformers trun
        else
          Except.error ("Unable to synthesize: incompatible model type")
    | _ => Except.error ("Unable to synthesize: incompatible model type")

/-- The parsed CLI arguments of run.py (cfg_scale, a float the script
only passes through to the model, is not modelled). -/
structure Args where
  model : String
  device : String
  ddpm_steps : Nat
  voice : String
  voice_prompt : Option String
  text : Option String
  out : String
  list_voices : Bool
  force_download : Bool
deriving DecidableEq, Repr

/-- Python truthiness of an optional string argument (`not args.text`):
absent and empty strings are falsy. -/
def falsyStr : Option String → Bool
  | none => true
  | some s => s == ""

/-- How the process ends: `main` returned a code (carrying the caught
exception's message when it returned 1), or `parser.error` terminated
the process with a usage error. -/
inductive MainResult where
  | ret (code : Nat) (errMsg : Option String)
  | usageExit (msg : String)
deriving DecidableEq, Repr

/-- Which pipeline stages `main` reached: voices listed, device/dtype
resolved, voices passed to `download_voice_prompt`, URLs fetched, model
loaded, synthesis invoked. -/
structure MainTrace where
  printedVoices : Bool
  deviceResolved : Bool
  downloadVoiceCalls : List String
  urlsFetched : List String
  modelLoaded : Bool
  synthRan : Bool
deriving DecidableEq, Repr

def emptyTrace : MainTrace :=
  ⟨false, false, [], [], false, false⟩

/-- The tail of main's try block once a voice-prompt path is resolved:
load the model, synthesize, and write the output; a raised error is
caught by the top-level handler, which prints it and returns 1. -/
def mainSynthesize (tr : MainTrace) (loadedModel : ModelHandle)
    (vvImportOk : Bool) (ttsResult : List Int × Nat)
    (trun : TransformersRun) : MainResult × MainTrace :=
  let tr1 := { tr with modelLoaded := true, synthRan := true }
  match synthesize_vibevoice vvImportOk loadedModel ttsResult trun with
  | Except.ok _ => (MainResult.ret 0 none, tr1)
  | Except.error m => (MainResult.ret 1 (some m), tr1)

/-- Embeds `main()` after argument parsing: `--list-voices` prints and
returns 0; a falsy `--text` is a usage error; otherwise the try block
resolves device and dtype, resolves the voice-prompt path (the
user-supplied path when truthy, else `download_voice_prompt` on
`--voice`), loads the model, synthesizes and writes the output, catching
any raised exception as exit code 1. -/
def main (args : Args) (torch : Torch) (env : Env) (fs : FS)
    (loadedModel : ModelHandle) (vvImportOk : Bool)
    (ttsResult : List Int × Nat) (trun : TransformersRun) :
    MainResult × MainTrace :=
  if args.list_voices then
    (MainResult.ret 0 none, { emptyTrace with printedVoices := true })
  else if falsyStr args.text then
    (MainResult.usageExit ("--text is required"), emptyTrace)
  else
    let _resolved := get_device_dtype torch args.device
    let base := { emptyTrace with deviceResolved := true }
    if falsyStr args.voice_prompt = false then
      let vp := args.voice_prompt.getD ("")
      if fs.existsFile vp then
        mainSynthesize base loadedModel vvImportOk ttsResult trun
      else
        (MainResult.ret 1 (some ("Voice prompt not found: " ++ vp)), base)
    else
      let dl := download_voice_prompt env fs args.voice args.force_download
      let tr := { base with
        downloadVoiceCalls := [args.voice]
        urlsFetched := dl.2.2 }
      match dl.1 with
      | DlOutcome.ok _ =>
          mainSynthesize tr loadedModel vvImportOk ttsResult trun
      | DlOutcome.valueError m => (MainResult.ret 1 (some m), tr)
      | DlOutcome.runtimeError m _ => (MainResult.ret 1 (some m), tr)

end VibeVoiceRun

namespace VibeVoiceRun

/-- C1 counterexample: on a host with neither MPS nor CUDA, requesting
"mps" does fall back to device "cpu", but the dtype returned is float16,
not the float32 the claim says accompanies the CPU fallback. -/
theorem C1_cex_fallback_dtype_is_float16 :
    get_device_dtype ⟨false, false⟩ ("mps") = ("cpu", Dtype.float16) ∧
      Dtype.float16 ≠ Dtype.float32 := by
  constructor
  · rfl
  · decide

/-- C1 amended: requesting "mps" (resp. "cuda") on hardware lacking that
backend falls back to device "cpu" but keeps dtype float16, the
accelerator precision; only a direct "cpu" (or other non-accelerator)
request selects float32. -/
theorem C1_device_fallback (torch : Torch) :
    (torch.mps_is_available = false →
      get_device_dtype torch ("mps") = ("cpu", Dtype.float16)) ∧
    (torch.cuda_is_available = false →
      get_device_dtype torch ("cuda") = ("cpu", Dtype.float16)) ∧
    get_device_dtype torch ("cpu") = ("cpu", Dtype.float32) := by
  refine ⟨fun h => ?_, fun h => ?_, ?_⟩
  · simp [get_device_dtype, h]
  · simp [get_device_dtype, h]
  · rfl

/-- C1 amended, witness: concrete evaluation on a host with no accelerator. -/
theorem C1_device_fallback_witness :
    get_device_dtype ⟨false, false⟩ ("mps") = ("cpu", Dtype.float16) :=
  (C1_device_fallback ⟨false, false⟩).1 rfl

/-- Creating a directory never changes which regular files exist. -/
theorem FS.existsFile_mkdir (fs : FS) (d p : String) :
    (fs.mkdir d).existsFile p = fs.existsFile p := rfl

/-- After `mkdir d` the directory `d` exists. -/
theorem FS.mkdir_contains_self (fs : FS) (d : String) :
    (fs.mkdir d).dirs.contains d = true := by
  unfold FS.mkdir
  by_cases h : d ∈ fs.dirs
  · simp [h]
  · simp [h]

/-- `mkdir` of an already existing directory is the identity
(`exist_ok=True` semantics). -/
theorem FS.mkdir_eq_self (fs : FS) (d : String)
    (h : fs.dirs.contains d = true) : fs.mkdir d = fs := by
  have h' : d ∈ fs.dirs := by simpa using h
  unfold FS.mkdir
  simp [h']

/-- `mkdir` is idempotent. -/
theorem FS.mkdir_idem (fs : FS) (d : String) :
    (fs.mkdir d).mkdir d = fs.mkdir d :=
  FS.mkdir_eq_self _ _ (FS.mkdir_contains_self fs d)

/-- After writing a file it exists. -/
theorem FS.existsFile_writeFile_self (fs : FS) (p : String) :
    (fs.writeFile p).existsFile p = true := by
  unfold FS.writeFile FS.existsFile
  by_cases h : p ∈ fs.files
  · simp [h]
  · simp [h]

/-- Writing a file never changes which directories exist. -/
theorem FS.dirs_writeFile (fs : FS) (p : String) :
    (fs.writeFile p).dirs = fs.dirs := rfl

/-- C3: for a voice name that is not among the six predefined names,
`download_voice_prompt` returns the ValueError listing the available
voices, attempts no network GET, and leaves the filesystem untouched
(no directory and no file is created). -/
theorem C3_unknown_voice_fails_early (env : Env) (fs : FS) (voice : String)
    (force : Bool)
    (h : voice ∉ VOICE_PROMPTS.map (fun p => p.1)) :
    download_voice_prompt env fs voice force
      = (DlOutcome.valueError
          ("Unknown voice: " ++ voice ++ ". Available: " ++ availableVoices),
         fs, []) := by
  have hl : lookupVoice voice = none := by
    unfold lookupVoice
    have hf : VOICE_PROMPTS.find? (fun p => p.1 == voice) = none := by
      apply List.find?_eq_none.mpr
      intro q hq
      simp only [beq_iff_eq]
      intro hq1
      exact h (hq1 ▸ List.mem_map_of_mem (fun p => p.1) hq)
    rw [hf]
    rfl
  simp [download_voice_prompt, hl]

/-- C3 witness: the unknown voice "Bob" on an empty filesystem. -/
theorem C3_unknown_voice_fails_early_witness :
    download_voice_prompt
        ⟨"/home/u/.cache/huggingface", none, fun _ => "0123abcd",
         fun _ => Except.ok ()⟩
        ⟨[], []⟩ ("Bob") false
      = (DlOutcome.valueError
          ("Unknown voice: " ++ "Bob" ++ ". Available: " ++ availableVoices),
         ⟨[], []⟩, []) :=
  C3_unknown_voice_fails_early _ _ ("Bob") false (by decide)

/-- C6: for a known voice the returned cache path is exactly the fixed
cache directory joined with the voice name, an underscore, the first 8
hex characters of the MD5 of the URL, and ".wav"; and whether a network
GET happens is determined solely by that file's existence and the force
flag. -/
theorem C6_cache_path_structure (env : Env) (fs : FS) (voice : String)
    (info : VoiceInfo) (force : Bool)
    (hv : lookupVoice voice = some info) :
    (∀ p, (download_voice_prompt env fs voice force).1 = DlOutcome.ok p →
        p = cachePathFor env voice info.url) ∧
    (download_voice_prompt env fs voice force).2.2
      = (if fs.existsFile (cachePathFor env voice info.url) && !force
          then [] else [info.url]) := by
  simp only [download_voice_prompt, get_cache_dir, hv, cachePathFor,
    FS.existsFile_mkdir]
  by_cases hc : fs.existsFile
      (env.hfHome ++ "/vibevoice_prompts" ++ "/" ++ voice ++ "_"
        ++ (env.md5hex info.url).take 8 ++ ".wav") && !force
  · simp [hc, FS.existsFile_mkdir]
  · simp only [FS.existsFile_mkdir] at hc ⊢
    rw [if_neg (by simpa using hc), if_neg (by simpa using hc)]
    cases hnf : env.netFetch info.url with
    | ok u => simp
    | error e => simp

/-- C6 witness: concrete evaluation for "Aria" on an empty cache. -/
theorem C6_cache_path_structure_witness :
    (download_voice_prompt
        ⟨"/hf", none, fun _ => "aaaabbbbcccc", fun _ => Except.ok ()⟩
        ⟨[], []⟩ ("Aria") false).2.2
      = [("https://huggingface.co/microsoft/VibeVoice-Realtime-0.5B/resolve/main/audio_prompts/Aria.wav" : String)] := by
  have h := (C6_cache_path_structure
    ⟨"/hf", none, fun _ => "aaaabbbbcccc", fun _ => Except.ok ()⟩
    ⟨[], []⟩ ("Aria")
    ⟨"https://huggingface.co/microsoft/VibeVoice-Realtime-0.5B/resolve/main/audio_prompts/Aria.wav",
     "Female voice, warm tone"⟩ false rfl).2
  simpa using h

/-- C7: when the GET for a known, uncached (or force-refreshed) voice
fails with message e, `download_voice_prompt` raises a RuntimeError whose
message wraps e and whose chained cause is e, exactly one GET was
attempted (no retry), and no cache file is written. -/
theorem C7_download_failure_wrapped (env : Env) (fs : FS) (voice : String)
    (info : VoiceInfo) (e : String) (force : Bool)
    (hv : lookupVoice voice = some info)
    (hnet : env.netFetch info.url = Except.error e)
    (hmiss : fs.existsFile (cachePathFor env voice info.url) = false
      ∨ force = true) :
    download_voice_prompt env fs voice force
      = (DlOutcome.runtimeError
          ("Failed to download voice prompt: " ++ e) (some e),
         fs.mkdir (env.hfHome ++ "/vibevoice_prompts"), [info.url]) := by
  have hcond : (fs.existsFile (cachePathFor env voice info.url) && !force)
      = false := by
    rcases hmiss with h | h <;> simp [h]
  simp only [download_voice_prompt, get_cache_dir, FS.existsFile_mkdir]
  rw [hv]
  simp only [cachePathFor] at hcond
  simp [hcond, hnet]

/-- C7 witness: "Ruby" on an empty cache with a failing network. -/
theorem C7_download_failure_wrapped_witness :
    download_voice_prompt
        ⟨"/hf", none, fun _ => "1234abcd9999", fun _ => Except.error ("timed out")⟩
        ⟨[], []⟩ ("Ruby") false
      = (DlOutcome.runtimeError
          ("Failed to download voice prompt: " ++ "timed out")
          (some ("timed out")),
         FS.mkdir ⟨[], []⟩ ("/hf" ++ "/vibevoice_prompts"),
         [("https://huggingface.co/microsoft/VibeVoice-Realtime-0.5B/resolve/main/audio_prompts/Ruby.wav" : String)]) :=
  C7_download_failure_wrapped _ _ ("Ruby") _ ("timed out") false rfl rfl
    (Or.inl rfl)

/-- When the cache file already exists and force is off, the call is a
pure cache hit: it returns the computed path, creates only the cache
directory, and attempts no GET. -/
theorem download_cache_hit (env : Env) (fs : FS) (voice : String)
    (info : VoiceInfo)
    (hv : lookupVoice voice = some info)
    (hex : fs.existsFile (cachePathFor env voice info.url) = true) :
    download_voice_prompt env fs voice false
      = (DlOutcome.ok (cachePathFor env voice info.url),
         fs.mkdir (env.hfHome ++ "/vibevoice_prompts"), []) := by
  simp only [download_voice_prompt, get_cache_dir, hv]
  rw [if_pos]
  · simp only [cachePathFor]
  · simp only [cachePathFor] at hex
    simp [FS.existsFile_mkdir, hex]

/-- When the cache misses (or force is on) and the GET succeeds, the call
writes the cache file and returns the computed path. -/
theorem download_fetch_ok (env : Env) (fs : FS) (voice : String)
    (info : VoiceInfo) (u : Unit) (force : Bool)
    (hv : lookupVoice voice = some info)
    (hcond : (fs.existsFile (cachePathFor env voice info.url) && !force)
      = false)
    (hnf : env.netFetch info.url = Except.ok u) :
    download_voice_prompt env fs voice force
      = (DlOutcome.ok (cachePathFor env voice info.url),
         (fs.mkdir (env.hfHome ++ "/vibevoice_prompts")).writeFile
           (cachePathFor env voice info.url),
         [info.url]) := by
  simp only [download_voice_prompt, get_cache_dir, hv, cachePathFor,
    FS.existsFile_mkdir] at hcond ⊢
  simp [hcond, hnf]

/-- When the cache misses (or force is on) and the GET fails with e, the
call raises the wrapped RuntimeError and writes nothing. -/
theorem download_fetch_err (env : Env) (fs : FS) (voice : String)
    (info : VoiceInfo) (e : String) (force : Bool)
    (hv : lookupVoice voice = some info)
    (hcond : (fs.existsFile (cachePathFor env voice info.url) && !force)
      = false)
    (hnf : env.netFetch info.url = Except.error e) :
    download_voice_prompt env fs voice force
      = (DlOutcome.runtimeError
          ("Failed to download voice prompt: " ++ e) (some e),
         fs.mkdir (env.hfHome ++ "/vibevoice_prompts"), [info.url]) := by
  simp only [download_voice_prompt, get_cache_dir, hv, cachePathFor,
    FS.existsFile_mkdir] at hcond ⊢
  simp [hcond, hnf]

/-- After a successful call without force, the returned path is the
computed cache path, that file exists in the resulting state, and the
cache directory exists in the resulting state. -/
theorem download_ok_post (env : Env) (fs : FS) (voice : String)
    (info : VoiceInfo) (p : String)
    (hv : lookupVoice voice = some info)
    (h1 : (download_voice_prompt env fs voice false).1 = DlOutcome.ok p) :
    p = cachePathFor env voice info.url ∧
    (download_voice_prompt env fs voice false).2.1.existsFile
      (cachePathFor env voice info.url) = true ∧
    (download_voice_prompt env fs voice false).2.1.mkdir
      (env.hfHome ++ "/vibevoice_prompts")
      = (download_voice_prompt env fs voice false).2.1 := by
  by_cases hc : fs.existsFile (cachePathFor env voice info.url) = true
  · have hd := download_cache_hit env fs voice info hv hc
    rw [hd] at h1 ⊢
    simp only [DlOutcome.ok.injEq] at h1
    refine ⟨h1.symm, ?_, FS.mkdir_idem fs _⟩
    rw [FS.existsFile_mkdir]
    exact hc
  · have hc' : fs.existsFile (cachePathFor env voice info.url) = false := by
      simpa using hc
    cases hnf : env.netFetch info.url with
    | ok u =>
        have hd := download_fetch_ok env fs voice info u false hv
          (by simp [hc']) hnf
        rw [hd] at h1 ⊢
        simp only [DlOutcome.ok.injEq] at h1
        refine ⟨h1.symm, FS.existsFile_writeFile_self _ _, ?_⟩
        apply FS.mkdir_eq_self
        rw [FS.dirs_writeFile]
        exact FS.mkdir_contains_self fs _
    | error e =>
        have hd := download_fetch_err env fs voice info e false hv
          (by simp [hc']) hnf
        rw [hd] at h1
        simp at h1

/-- C2: for any predefined voice, if a first `download_voice_prompt` call
with force=False returned a path, the second call on the resulting state
returns the identical path, attempts no network GET, and leaves the
filesystem unchanged. -/
theorem C2_second_call_is_cache_hit (env : Env) (fs : FS) (voice : String)
    (info : VoiceInfo) (p : String)
    (hv : lookupVoice voice = some info)
    (h1 : (download_voice_prompt env fs voice false).1 = DlOutcome.ok p) :
    download_voice_prompt env (download_voice_prompt env fs voice false).2.1
        voice false
      = (DlOutcome.ok p, (download_voice_prompt env fs voice false).2.1,
         []) := by
  obtain ⟨hp, hex, hmk⟩ := download_ok_post env fs voice info p hv h1
  have h2 := download_cache_hit env
    (download_voice_prompt env fs voice false).2.1 voice info hv hex
  rw [hmk] at h2
  rw [h2, hp]

/-- C4: with --list-voices, main prints the six available voices and
returns exit code 0 whatever --text is, reaching no other pipeline stage
(no device resolution, no download call, no fetch, no model load, no
synthesis). -/
theorem C4_list_voices_exits_zero (args : Args) (torch : Torch) (env : Env)
    (fs : FS) (m : ModelHandle) (vv : Bool) (tts : List Int × Nat)
    (trun : TransformersRun) (h : args.list_voices = true) :
    main args torch env fs m vv tts trun
      = (MainResult.ret 0 none, ⟨true, false, [], [], false, false⟩)
    ∧ list_voices
      = ["Available voices:",
         "  Carter: Male voice, neutral tone",
         "  Nicole: Female voice, neutral tone",
         "  Aria: Female voice, warm tone",
         "  Daphne: Female voice, professional tone",
         "  Jessica: Female voice, friendly tone",
         "  Ruby: Female voice, energetic tone"] := by
  constructor
  · simp [main, h, emptyTrace]
  · rfl

/-- C4 witness: --list-voices with --text absent still exits 0. -/
theorem C4_list_voices_exits_zero_witness :
    main
        ⟨"microsoft/VibeVoice-Realtime-0.5B", "mps", 5, "Carter", none,
         none, "output.wav", true, false⟩
        ⟨false, false⟩
        ⟨"/hf", none, fun _ => "h", fun _ => Except.ok ()⟩
        ⟨[], []⟩ ModelHandle.otherHandle false ([], 0)
        ⟨22050, GenOutputs.otherOutput ("T")⟩
      = (MainResult.ret 0 none, ⟨true, false, [], [], false, false⟩) :=
  (C4_list_voices_exits_zero _ _ _ _ _ _ _ _ rfl).1

/-- C5: without --list-voices and with a falsy --text, main stops with
the argparse usage error "--text is required", reaching no pipeline
stage at all. -/
theorem C5_missing_text_usage_error (args : Args) (torch : Torch)
    (env : Env) (fs : FS) (m : ModelHandle) (vv : Bool)
    (tts : List Int × Nat) (trun : TransformersRun)
    (h1 : args.list_voices = false) (h2 : falsyStr args.text = true) :
    main args torch env fs m vv tts trun
      = (MainResult.usageExit ("--text is required"), emptyTrace) := by
  simp [main, h1, h2]

/-- C5 witness: neither --list-voices nor --text given. -/
theorem C5_missing_text_usage_error_witness :
    main
        ⟨"microsoft/VibeVoice-Realtime-0.5B", "cpu", 5, "Carter", none,
         none, "output.wav", false, false⟩
        ⟨false, false⟩
        ⟨"/hf", none, fun _ => "h", fun _ => Except.ok ()⟩
        ⟨[], []⟩ ModelHandle.otherHandle false ([], 0)
        ⟨22050, GenOutputs.otherOutput ("T")⟩
      = (MainResult.usageExit ("--text is required"), emptyTrace) :=
  C5_missing_text_usage_error _ _ _ _ _ _ _ _ rfl rfl

/-- C8: the dispatch inspects the model handle's shape: a VibeVoice
instance goes through the official tts path and its result is returned
unchanged; a dict holding both "model" and "processor" goes through the
transformers path; anything else (including a dict missing either key)
raises the incompatible-model RuntimeError; and an error raised during
synthesis inside main's try block makes main return 1 carrying the
message. -/
theorem C8_synthesis_dispatch_shapes (vv : Bool) (tts : List Int × Nat)
    (trun : TransformersRun) (keys : List String) (args : Args)
    (torch : Torch) (env : Env) (fs : FS) (m : ModelHandle)
    (emsg : String) :
    synthesize_vibevoice true ModelHandle.vibeVoiceInstance tts trun
      = Except.ok tts
    ∧ ((keys.contains ("model") && keys.contains ("processor")) = true →
        synthesize_vibevoice vv (ModelHandle.pyDict keys) tts trun
          = synthesize_transformers trun)
    ∧ synthesize_vibevoice vv ModelHandle.otherHandle tts trun
        = Except.error ("Unable to synthesize: incompatible model type")
    ∧ ((keys.contains ("model") && keys.contains ("processor")) = false →
        synthesize_vibevoice vv (ModelHandle.pyDict keys) tts trun
          = Except.error ("Unable to synthesize: incompatible model type"))
    ∧ (args.list_voices = false → falsyStr args.text = false →
        falsyStr args.voice_prompt = false →
        fs.existsFile (args.voice_prompt.getD ("")) = true →
        synthesize_vibevoice vv m tts trun = Except.error emsg →
        main args torch env fs m vv tts trun
          = (MainResult.ret 1 (some emsg),
             ⟨false, true, [], [], true, true⟩)) := by
  refine ⟨?_, ?_, ?_, ?_, ?_⟩
  · simp [synthesize_vibevoice]
  · intro h
    obtain ⟨hm, hp⟩ : "model" ∈ keys ∧ "processor" ∈ keys := by
      simpa using h
    simp [synthesize_vibevoice, hm, hp]
  · simp [synthesize_vibevoice]
  · intro h
    simp [synthesize_vibevoice]
    intro hm hp
    simp [hm, hp] at h
  · intro h1 h2 h3 h4 h5
    simp [main, h1, h2, h3, h4, mainSynthesize, h5, emptyTrace]

/-- C8 witness: a handle of neither shape makes main exit 1 with the
incompatible-model message. -/
theorem C8_synthesis_dispatch_shapes_witness :
    main
        ⟨"m", "cpu", 5, "Carter", some ("/tmp/p.wav"), some ("hello"),
         "out.wav", false, false⟩
        ⟨false, false⟩
        ⟨"/hf", none, fun _ => "h", fun _ => Except.ok ()⟩
        ⟨["/tmp/p.wav"], []⟩ ModelHandle.otherHandle false ([], 0)
        ⟨22050, GenOutputs.otherOutput ("T")⟩
      = (MainResult.ret 1
          (some ("Unable to synthesize: incompatible model type")),
         ⟨false, true, [], [], true, true⟩) :=
  (C8_synthesis_dispatch_shapes false ([], 0)
    ⟨22050, GenOutputs.otherOutput ("T")⟩ []
    ⟨"m", "cpu", 5, "Carter", some ("/tmp/p.wav"), some ("hello"), "out.wav",
     false, false⟩
    ⟨false, false⟩ ⟨"/hf", none, fun _ => "h", fun _ => Except.ok ()⟩
    ⟨["/tmp/p.wav"], []⟩ ModelHandle.otherHandle
    "Unable to synthesize: incompatible model type").2.2.2.2
    rfl rfl (by decide) (by decide) rfl

/-- C9: whenever the transformers fallback succeeds it returns the fixed
DEFAULT_SAMPLE_RATE, whatever sample rate the voice-prompt audio had;
the official path hands back the model-reported pair untouched. -/
theorem C9_fallback_sample_rate_fixed (trun : TransformersRun)
    (audio : List Int) (sr : Nat) (tts : List Int × Nat)
    (h : synthesize_transformers trun = Except.ok (audio, sr)) :
    sr = DEFAULT_SAMPLE_RATE ∧
    synthesize_vibevoice true ModelHandle.vibeVoiceInstance tts trun
      = Except.ok tts := by
  constructor
  · cases ho : trun.outputs with
    | withAudio a =>
        simp [synthesize_transformers, ho] at h
        exact h.2.symm
    | tensor a =>
        simp [synthesize_transformers, ho] at h
        exact h.2.symm
    | otherOutput t =>
        simp [synthesize_transformers, ho] at h
  · simp [synthesize_vibevoice]

/-- C9 witness: a 44100 Hz prompt still yields 22050 out of the
fallback, while the official path reports the model's own 48000. -/
theorem C9_fallback_sample_rate_fixed_witness :
    (22050 : Nat) = DEFAULT_SAMPLE_RATE ∧
    synthesize_vibevoice true ModelHandle.vibeVoiceInstance ([3], 48000)
        ⟨44100, GenOutputs.tensor [1, 2]⟩
      = Except.ok ([3], 48000) :=
  C9_fallback_sample_rate_fixed ⟨44100, GenOutputs.tensor [1, 2]⟩ [1, 2]
    22050 ([3], 48000) rfl

/-- C10: with a truthy --voice-prompt, main never calls
download_voice_prompt and fetches nothing, the --voice argument (valid
or not) does not affect the run at all, and a missing file is the only
failure: a FileNotFoundError caught as exit code 1. -/
theorem C10_voice_prompt_exclusive (args : Args) (torch : Torch)
    (env : Env) (fs : FS) (m : ModelHandle) (vv : Bool)
    (tts : List Int × Nat) (trun : TransformersRun) (vp v : String)
    (h1 : args.list_voices = false) (h2 : falsyStr args.text = false)
    (h3 : args.voice_prompt = some vp) (h4 : vp ≠ "") :
    (main args torch env fs m vv tts trun).2.downloadVoiceCalls = []
    ∧ (main args torch env fs m vv tts trun).2.urlsFetched = []
    ∧ main { args with voice := v } torch env fs m vv tts trun
        = main args torch env fs m vv tts trun
    ∧ (fs.existsFile vp = false →
        main args torch env fs m vv tts trun
          = (MainResult.ret 1 (some ("Voice prompt not found: " ++ vp)),
             ⟨false, true, [], [], false, false⟩)) := by
  have hfal : falsyStr (some vp) = false := by
    simp [falsyStr, h4]
  have hmain : main args torch env fs m vv tts trun
      = (if fs.existsFile vp then
           mainSynthesize ⟨false, true, [], [], false, false⟩ m vv tts trun
         else
           (MainResult.ret 1 (some ("Voice prompt not found: " ++ vp)),
            ⟨false, true, [], [], false, false⟩)) := by
    simp [main, h1, h2, h3, hfal, emptyTrace]
  have hmain2 : main { args with voice := v } torch env fs m vv tts trun
      = (if fs.existsFile vp then
           mainSynthesize ⟨false, true, [], [], false, false⟩ m vv tts trun
         else
           (MainResult.ret 1 (some ("Voice prompt not found: " ++ vp)),
            ⟨false, true, [], [], false, false⟩)) := by
    simp [main, h1, h2, h3, hfal, emptyTrace]
  refine ⟨?_, ?_, hmain2.trans hmain.symm, fun hex => ?_⟩
  · rw [hmain]
    by_cases hex : fs.existsFile vp = true
    · rw [if_pos hex]
      unfold mainSynthesize
      cases hs : synthesize_vibevoice vv m tts trun <;> simp [hs]
    · rw [if_neg (by simp [hex])]
  · rw [hmain]
    by_cases hex : fs.existsFile vp = true
    · rw [if_pos hex]
      unfold mainSynthesize
      cases hs : synthesize_vibevoice vv m tts trun <;> simp [hs]
    · rw [if_neg (by simp [hex])]
  · rw [hmain, if_neg (by simp [hex])]

/-- C10 witness: an unknown --voice together with --voice-prompt causes
no voice validation; the missing prompt file alone fails the run. -/
theorem C10_voice_prompt_exclusive_witness :
    main
        ⟨"m", "cpu", 5, "NotAVoice", some ("/p.wav"), some ("hi"), "out.wav",
         false, false⟩
        ⟨false, false⟩
        ⟨"/hf", none, fun _ => "h", fun _ => Except.ok ()⟩
        ⟨[], []⟩ ModelHandle.otherHandle false ([], 0)
        ⟨22050, GenOutputs.otherOutput ("T")⟩
      = (MainResult.ret 1 (some ("Voice prompt not found: " ++ "/p.wav")),
         ⟨false, true, [], [], false, false⟩) :=
  (C10_voice_prompt_exclusive
    ⟨"m", "cpu", 5, "NotAVoice", some ("/p.wav"), some ("hi"), "out.wav",
     false, false⟩
    ⟨false, false⟩ ⟨"/hf", none, fun _ => "h", fun _ => Except.ok ()⟩
    ⟨[], []⟩ ModelHandle.otherHandle false ([], 0)
    ⟨22050, GenOutputs.otherOutput ("T")⟩ ("/p.wav") ("x") rfl rfl rfl
    (by decide)).2.2.2 rfl

/-- C2 witness: "Carter" on an empty cache; the first call downloads,
the second is a pure cache hit returning the same path. -/
theorem C2_second_call_is_cache_hit_witness :
    download_voice_prompt
        ⟨"/hf", none, fun _ => "feedface0123", fun _ => Except.ok ()⟩
        ((download_voice_prompt
            ⟨"/hf", none, fun _ => "feedface0123", fun _ => Except.ok ()⟩
            ⟨[], []⟩ ("Carter") false).2.1) ("Carter") false
      = (DlOutcome.ok ("/hf/vibevoice_prompts/Carter_feedface.wav"),
         (download_voice_prompt
            ⟨"/hf", none, fun _ => "feedface0123", fun _ => Except.ok ()⟩
            ⟨[], []⟩ ("Carter") false).2.1, []) :=
  C2_second_call_is_cache_hit _ _ ("Carter") _
    "/hf/vibevoice_prompts/Carter_feedface.wav" rfl (by decide)

end VibeVoiceRun
